import Mathlib

/-!
Verification development for the ytdownloader repository (src/ytdl_pro.py,
src/app.py). The claims concern ytdl_pro.py: its worker `download_video`
(lines 46-94), its orchestrator `main` (lines 97-147) and the argument
handling in the `__main__` block (lines 150-206).

The shallow embedding below translates that code into Lean. External
effects are made explicit parameters:
  - the filesystem is an `Env` record: the current working directory,
    an existence predicate, the fake-useragent generator (`ua.random`,
    `Option String`: `none` models a failed `UserAgent()` construction)
    and the machine cpu count;
  - the yt-dlp engine outcome for a URL is a function
    `String -> EngineOutcome` (success with an optional title, a
    `DownloadError`, or any other exception);
  - the multiprocessing pool phase of `main` (the `try:` block, lines
    121-132) is a `TryOutcome`: it either completed with the full result
    list, was interrupted by KeyboardInterrupt while `list(...)` was still
    assembling the results (those results are then discarded because the
    assignment to `results` never happens), was interrupted during the
    tally `for` loop after j entries, or hit a generic exception.
Log calls are modelled as explicit lists of (level, message) events.
Python `str.strip` is modelled over the character list, dropping the
ASCII whitespace recognised by `Char.isWhitespace`; `os.path.join` and
`os.path.abspath` are modelled over character lists without the final
`normpath` collapsing (no claim depends on normalisation).
-/

/-- Log severities of the `logging` module as used by ytdl_pro.py. -/
inductive LogLevel where
  | debug
  | info
  | warning
  | error
deriving DecidableEq, Repr

/-- One emitted log line: severity plus message. -/
structure LogEvent where
  level : LogLevel
  msg : String
deriving DecidableEq, Repr

/-- Result tuple `(url, success, error_message)` returned by
`download_video` (lines 86, 90, 94). -/
structure DlResult where
  url : String
  success : Bool
  errorMessage : Option String
deriving DecidableEq, Repr

/-- Argument tuple `(url, quality, output_dir, cookiefile, quiet_ydl)`
built at line 115 and consumed by `download_video` (line 48). -/
structure WorkerArgs where
  url : String
  quality : String
  outputDir : String
  cookiefile : Option String
  quietYdl : Bool
deriving DecidableEq, Repr

/-- The fields of the `ydl_opts` dictionary (lines 56-77) that the claims
mention. `httpUserAgent` is the `User-Agent` entry of `http_headers`. -/
structure YdlOpts where
  outtmpl : String
  format : String
  mergeOutputFormat : String
  nocheckcertificate : Bool
  quiet : Bool
  httpUserAgent : String
  cookiefile : Option String
  writethumbnail : Bool
deriving DecidableEq, Repr

/-- Outcome of one yt-dlp session for a URL: `extract_info` plus
`download` succeed (with the optional discovered title, line 82), or a
`DownloadError` is raised (line 88), or any other exception (line 91). -/
inductive EngineOutcome where
  | ok (title : Option String)
  | downloadError (msg : String)
  | otherError (msg : String)
deriving DecidableEq, Repr

/-- Ambient process state: working directory, `os.path.exists`, the
fake-useragent generator (`none` = construction failed, lines 34-38) and
`cpu_count()` (line 23). -/
structure Env where
  cwd : String
  fsExists : String → Bool
  uaRandom : Option String
  cpuCount : Nat

/-- Model of `os.path.join a b` over character lists: an absolute second
component wins; otherwise the parts are glued with a single slash. -/
def joinC (a b : List Char) : List Char :=
  if b.head? = some '/' then b
  else if a = [] then b
  else if a.getLast? = some '/' then a ++ b
  else a ++ '/' :: b

/-- Model of `os.path.abspath p`: join the current working directory in
front (an already absolute `p` is returned as is), without `normpath`
collapsing. -/
def abspathC (cwd p : List Char) : List Char :=
  joinC cwd p

/-- String wrapper for `os.path.abspath`. -/
def pyAbspath (cwd p : String) : String :=
  (abspathC cwd.toList p.toList).asString

/-- Model of Python `line.strip()`: drop leading and trailing whitespace
characters. -/
def pyStrip (s : String) : String :=
  (((s.toList.dropWhile Char.isWhitespace).reverse.dropWhile
      Char.isWhitespace).reverse).asString

/-- Model of Python `line.startswith('#')` on the raw line: test only the
very first character. -/
def startsHash (s : String) : Bool :=
  match s.toList with
  | [] => false
  | c :: _ => c == '#'

/-- URL-file parsing, line 184:
`[line.strip() for line in f if line.strip() and not line.startswith('#')]`.
A line is kept when its stripped form is non-empty (Python truthiness)
and the RAW line does not start with the hash character; the kept element
is the stripped line. -/
def parse_url_lines (lines : List String) : List String :=
  (lines.filter (fun l => !(pyStrip l).isEmpty && !startsHash l)).map pyStrip

/-- URL loading of the `--file` branch, lines 180-194. `none` models
`FileNotFoundError` (exit code 1, line 191); an empty parse result is
also exit code 1 (line 187). -/
def load_video_urls (fileLines : Option (List String)) : Except Nat (List String) :=
  match fileLines with
  | none => Except.error 1
  | some lines =>
    let urls := parse_url_lines lines
    if urls.isEmpty then Except.error 1 else Except.ok urls

/-- Worker-count correction, lines 196-198: a non-positive configured
count is replaced by `DEFAULT_PROCESSES = cpu_count()`. -/
def resolve_processes (configured : Int) (cpuCount : Nat) : Int :=
  if configured ≤ 0 then (cpuCount : Int) else configured

/-- Cookie-path resolution, lines 200-204: the given path is made
absolute; a missing file only produces a warning. -/
def resolve_cookie (env : Env) (arg : Option String) : Option String × List LogEvent :=
  match arg with
  | none => (none, [])
  | some c =>
    let p := pyAbspath env.cwd c
    (some p,
      if env.fsExists p then []
      else [⟨LogLevel.warning, "Specified cookie file does not exist: " ++ p⟩])

/-- Output filename pattern used at line 54. -/
def OUTPUT_PATTERN : String := "%(title)s [%(id)s].%(ext)s"

/-- The format selector f-string of line 58. -/
def format_selector (quality : String) : String :=
  "bestvideo[height<=" ++ quality ++ "][ext=mp4]+bestaudio[ext=m4a]/bestvideo[height<="
    ++ quality ++ "]+bestaudio/best[height<=" ++ quality ++ "]"

/-- Construction of `ydl_opts` (lines 51-77), including the cookie-file
conditional: the cookie entry is added only when the path exists (line
73); a specified but missing path logs a warning (line 77). Returns the
options plus the log events emitted while building them. -/
def build_ydl_opts (env : Env) (a : WorkerArgs) : YdlOpts × List LogEvent :=
  let user_agent := env.uaRandom.getD ("Mozilla/5.0")
  let output_template :=
    (abspathC env.cwd.toList (joinC a.outputDir.toList OUTPUT_PATTERN.toList)).asString
  let base : YdlOpts :=
    { outtmpl := output_template
      format := format_selector a.quality
      mergeOutputFormat := "mp4"
      nocheckcertificate := false
      quiet := a.quietYdl
      httpUserAgent := user_agent
      cookiefile := none
      writethumbnail := true }
  match a.cookiefile with
  | none => (base, [])
  | some c =>
    if env.fsExists c then
      ({ base with cookiefile := some c },
        [⟨LogLevel.debug, "Using cookie file: " ++ c ++ " for " ++ a.url⟩])
    else
      (base, [⟨LogLevel.warning, "Cookie file specified but not found: " ++ c⟩])

/-- The worker `download_video` (lines 46-94). Every branch RETURNS a
`DlResult` (the function is total): success gives `(url, true, none)`
(line 86), a `DownloadError` gives `(url, false, str e)` and an
error-level log (lines 88-90), any other exception gives
`(url, false, "Unexpected error: " ++ msg)`, an error-level log and a
debug-level traceback log (lines 91-94). No branch re-raises, which
embeds the failure-containment contract of the worker boundary. -/
def download_video (env : Env) (engine : String → EngineOutcome)
    (a : WorkerArgs) : DlResult × List LogEvent :=
  let built := build_ydl_opts env a
  let cookieLogs := built.2
  let startLog : LogEvent := ⟨LogLevel.debug, "Starting download: " ++ a.url⟩
  match engine a.url with
  | EngineOutcome.ok title =>
    let video_title := title.getD a.url
    (⟨a.url, true, none⟩,
      cookieLogs ++ [startLog,
        ⟨LogLevel.info, "Downloading: " ++ video_title ++ " (" ++ a.url ++ ")"⟩,
        ⟨LogLevel.info, "Finished: " ++ video_title ++ " (" ++ a.url ++ ")"⟩])
  | EngineOutcome.downloadError m =>
    (⟨a.url, false, some m⟩,
      cookieLogs ++ [startLog,
        ⟨LogLevel.error, "yt-dlp error downloading (" ++ a.url ++ "): " ++ m⟩])
  | EngineOutcome.otherError m =>
    (⟨a.url, false, some ("Unexpected error: " ++ m)⟩,
      cookieLogs ++ [startLog,
        ⟨LogLevel.error, "Unexpected error downloading (" ++ a.url ++ "): " ++ m⟩,
        ⟨LogLevel.debug, "traceback"⟩])

/-- The summary accumulator of `main`: `success_count`, `fail_count`,
`failed_urls` (lines 117-119). -/
structure BatchSummary where
  succeeded : Nat
  failed : Nat
  failedUrls : List (String × Option String)
deriving DecidableEq, Repr

/-- One step of the counting loop, lines 127-132. -/
def tally (acc : BatchSummary) (r : DlResult) : BatchSummary :=
  if r.success then { acc with succeeded := acc.succeeded + 1 }
  else { acc with failed := acc.failed + 1,
                  failedUrls := acc.failedUrls ++ [(r.url, r.errorMessage)] }

/-- How far the `try:` block of `main` (lines 121-132) got.
`completed` carries the fully assembled `results` list (the order is
whatever `imap_unordered` produced). `interruptedCollecting` is a
KeyboardInterrupt raised while `list(tqdm(...))` was still running: the
`produced` results existed in the iterator but the assignment to
`results` never happened, so they are lost. `interruptedTallying` is a
KeyboardInterrupt in the counting `for` loop after `j` entries were
tallied. `criticalErrorDuring` is any other exception in the pool phase
(line 135). -/
inductive TryOutcome where
  | completed (results : List DlResult)
  | interruptedCollecting (produced : List DlResult)
  | interruptedTallying (results : List DlResult) (j : Nat)
  | criticalErrorDuring (msg : String)
deriving DecidableEq, Repr

/-- Observable trace of one run of `main`. `summary = none` means the
final summary block (lines 139-147) was never printed, which happens
exactly on the early `return` of line 113. -/
structure MainTrace where
  absOutputDir : String
  dirCreated : Bool
  dispatched : Option (List WorkerArgs)
  summary : Option BatchSummary
  logs : List LogEvent
deriving Repr

/-- Summary block log lines of the `finally:` clause, lines 139-147. -/
def summaryLogs (absDir : String) (s : BatchSummary) : List LogEvent :=
  [⟨LogLevel.info, "--- Download Summary ---"⟩,
   ⟨LogLevel.info, "Output directory: " ++ absDir⟩,
   ⟨LogLevel.info, "Successfully downloaded: " ++ toString s.succeeded ++ " video(s)"⟩,
   ⟨LogLevel.info, "Failed to download: " ++ toString s.failed ++ " video(s)"⟩]
  ++ (if s.failedUrls.isEmpty then []
      else ⟨LogLevel.warning, "Failed URLs:"⟩ ::
        s.failedUrls.map (fun p =>
          ⟨LogLevel.warning, "  - " ++ p.1 ++ " (Reason: " ++
            (p.2.getD ("None")) ++ ")"⟩))
  ++ [⟨LogLevel.info, "------------------------"⟩]

/-- The orchestrator `main` (lines 97-147). `mkdirOk` is the outcome of
`os.makedirs` (line 108): on failure `main` logs an error and RETURNS at
line 113, before the `try/finally`, so nothing is dispatched and no
summary is printed. On success the `download_args` list is built (line
115, one tuple per URL, passing the ORIGINAL `output_dir`), the pool
phase runs (summarised by `outcome`), and the `finally:` clause always
prints the summary computed from whatever the counting loop tallied. -/
def mainRun (env : Env) (urls : List String) (quality output_dir : String)
    (processes : Int) (cookiefile : Option String) (quiet : Bool)
    (mkdirOk : Bool) (outcome : TryOutcome) : MainTrace :=
  let abs_output_dir := pyAbspath env.cwd output_dir
  let headLogs : List LogEvent :=
    [⟨LogLevel.info, "Starting download process for " ++ toString urls.length ++ " videos."⟩,
     ⟨LogLevel.info, "Quality: " ++ quality ++ "p"⟩,
     ⟨LogLevel.info, "Output directory: " ++ abs_output_dir⟩,
     ⟨LogLevel.info, "Using " ++ toString processes ++ " parallel processes."⟩]
    ++ (match cookiefile with
        | some c => [⟨LogLevel.info, "Using cookie file: " ++ c⟩]
        | none => [])
  if mkdirOk then
    let download_args : List WorkerArgs :=
      urls.map (fun url => ⟨url, quality, output_dir, cookiefile, quiet⟩)
    let tallied : List DlResult :=
      match outcome with
      | TryOutcome.completed rs => rs
      | TryOutcome.interruptedCollecting _ => []
      | TryOutcome.interruptedTallying rs j => rs.take j
      | TryOutcome.criticalErrorDuring _ => []
    let poolLogs : List LogEvent :=
      match outcome with
      | TryOutcome.completed _ => []
      | TryOutcome.interruptedCollecting _ =>
          [⟨LogLevel.warning, "Download interrupted by user."⟩]
      | TryOutcome.interruptedTallying _ _ =>
          [⟨LogLevel.warning, "Download interrupted by user."⟩]
      | TryOutcome.criticalErrorDuring m =>
          [⟨LogLevel.error, "An critical error occurred during multiprocessing: " ++ m⟩,
           ⟨LogLevel.debug, "traceback"⟩]
    let s := tallied.foldl tally ⟨0, 0, []⟩
    { absOutputDir := abs_output_dir
      dirCreated := true
      dispatched := some download_args
      summary := some s
      logs := headLogs ++ poolLogs ++ summaryLogs abs_output_dir s }
  else
    { absOutputDir := abs_output_dir
      dirCreated := false
      dispatched := none
      summary := none
      logs := headLogs ++
        [⟨LogLevel.error, "Failed to create output directory: " ++ abs_output_dir⟩] }

/-- The `__main__` glue for the URL-file input branch (lines 177-206):
load URLs (exit code 1 on missing or empty file), correct the worker
count, resolve the cookie path (warning only when missing), then call
`main`. -/
def script_run (env : Env) (fileLines : Option (List String))
    (quality output_dir : String) (processes : Int)
    (cookieArg : Option String) (quiet : Bool)
    (mkdirOk : Bool) (outcome : TryOutcome) : Except Nat MainTrace :=
  match load_video_urls fileLines with
  | Except.error n => Except.error n
  | Except.ok urls =>
    let procs := resolve_processes processes env.cpuCount
    let cookie_path := (resolve_cookie env cookieArg).1
    Except.ok (mainRun env urls quality output_dir procs cookie_path quiet mkdirOk outcome)

/-! Helper lemmas about the path model and the tally loop. -/

theorem head?_append_left (l₁ l₂ : List Char) (h : l₁ ≠ []) :
    (l₁ ++ l₂).head? = l₁.head? := by
  cases l₁ with
  | nil => exact absurd rfl h
  | cons c t => rfl

theorem getLast?_cons_of_ne_nil (c : Char) (l : List Char) (h : l ≠ []) :
    (c :: l).getLast? = l.getLast? := by
  cases l with
  | nil => exact absurd rfl h
  | cons x t => exact List.getLast?_cons_cons

theorem joinC_abs (a b : List Char) (hb : b.head? = some '/') : joinC a b = b := by
  simp [joinC, hb]

theorem joinC_nil_left (b : List Char) : joinC [] b = b := by
  unfold joinC
  by_cases hb : b.head? = some '/' <;> simp [hb]

theorem joinC_of_not_abs (a b : List Char) (hb : ¬ b.head? = some '/') (ha : a ≠ []) :
    joinC a b = if a.getLast? = some '/' then a ++ b else a ++ '/' :: b := by
  unfold joinC
  rw [if_neg hb, if_neg ha]

theorem joinC_ne_nil (a b : List Char) (hb : ¬ b.head? = some '/') (ha : a ≠ []) :
    joinC a b ≠ [] := by
  rw [joinC_of_not_abs a b hb ha]
  by_cases hl : a.getLast? = some '/' <;> simp [hl, ha]

theorem joinC_head_of_not_abs (a b : List Char) (hb : ¬ b.head? = some '/') (ha : a ≠ []) :
    (joinC a b).head? = a.head? := by
  rw [joinC_of_not_abs a b hb ha]
  by_cases hl : a.getLast? = some '/'
  · rw [if_pos hl, head?_append_left _ _ ha]
  · rw [if_neg hl, head?_append_left _ _ ha]

theorem joinC_getLast (a b : List Char) (hb : ¬ b.head? = some '/') (ha : a ≠ [])
    (hbne : b ≠ []) : (joinC a b).getLast? = b.getLast? := by
  rw [joinC_of_not_abs a b hb ha]
  by_cases hl : a.getLast? = some '/'
  · rw [if_pos hl, List.getLast?_append_of_ne_nil _ hbne]
  · rw [if_neg hl, List.getLast?_append_of_ne_nil _ (by simp),
      getLast?_cons_of_ne_nil _ _ hbne]

theorem joinC_assoc (cwd d p : List Char) (hd : d ≠ []) (hp : ¬ p.head? = some '/') :
    joinC cwd (joinC d p) = joinC (joinC cwd d) p := by
  by_cases hdabs : d.head? = some '/'
  · have h2 : (joinC d p).head? = some '/' := by
      rw [joinC_head_of_not_abs d p hp hd, hdabs]
    rw [joinC_abs cwd d hdabs, joinC_abs cwd (joinC d p) h2]
  · by_cases hcwd : cwd = []
    · subst hcwd
      rw [joinC_nil_left, joinC_nil_left]
    · have hXabs : ¬ (joinC d p).head? = some '/' := by
        rw [joinC_head_of_not_abs d p hp hd]; exact hdabs
      have hCDne : joinC cwd d ≠ [] := joinC_ne_nil cwd d hdabs hcwd
      have hCDlast : (joinC cwd d).getLast? = d.getLast? :=
        joinC_getLast cwd d hdabs hcwd hd
      rw [joinC_of_not_abs cwd (joinC d p) hXabs hcwd,
        joinC_of_not_abs (joinC cwd d) p hp hCDne, hCDlast,
        joinC_of_not_abs d p hp hd, joinC_of_not_abs cwd d hdabs hcwd]
      by_cases h1 : cwd.getLast? = some '/' <;>
        by_cases h2 : d.getLast? = some '/' <;>
          simp [h1, h2, List.append_assoc]

theorem toList_ne_nil_of_ne_empty (s : String) (h : s ≠ "") : s.toList ≠ [] := by
  intro hl
  exact h (String.toList_inj.mp (hl.trans String.toList_empty.symm))

theorem tally_foldl_counts (rs : List DlResult) (init : BatchSummary) :
    (rs.foldl tally init).succeeded + (rs.foldl tally init).failed
      = init.succeeded + init.failed + rs.length := by
  induction rs generalizing init with
  | nil => simp
  | cons r rs ih =>
    simp only [List.foldl_cons, List.length_cons]
    rw [ih]
    by_cases h : r.success <;> simp [tally, h] <;> omega

theorem download_video_url (env : Env) (engine : String → EngineOutcome)
    (a : WorkerArgs) : (download_video env engine a).1.url = a.url := by
  rcases h : engine a.url with t | m | m <;> simp [download_video, h]

/-! Concrete instances used by the closed witness theorems. -/

def env0 : Env :=
  { cwd := "/home/user", fsExists := fun _ => false, uaRandom := none, cpuCount := 4 }

def engine0 : String → EngineOutcome := fun _ => EngineOutcome.ok none

/-- C1: for every non-empty (indeed every) URL list, when the output
directory is created (`mkdirOk = true`) and the pool phase completes
uninterrupted with a result list `rs` — the contract of
`imap_unordered`: some permutation of `download_video` applied to each
dispatched argument tuple — the orchestrator holds exactly one
`DlResult` per input URL (the multiset of result URLs equals the
multiset of input URLs) and the printed summary satisfies
`succeeded + failed = number of input URLs`. -/
theorem main_collects_one_result_per_url
    (env : Env) (engine : String → EngineOutcome) (urls : List String)
    (quality output_dir : String) (processes : Int)
    (cookiefile : Option String) (quiet : Bool) (rs : List DlResult)
    (hpool : rs.Perm ((urls.map (fun url =>
        (⟨url, quality, output_dir, cookiefile, quiet⟩ : WorkerArgs))).map
        (fun a => (download_video env engine a).1))) :
    rs.length = urls.length ∧
    (rs.map DlResult.url).Perm urls ∧
    ∃ s, (mainRun env urls quality output_dir processes cookiefile quiet true
            (TryOutcome.completed rs)).summary = some s ∧
         s.succeeded + s.failed = urls.length := by
  have hlen : rs.length = urls.length := by
    simpa using hpool.length_eq
  refine ⟨hlen, ?_, ?_⟩
  · have h1 := hpool.map DlResult.url
    have h2 : ((urls.map (fun url =>
        (⟨url, quality, output_dir, cookiefile, quiet⟩ : WorkerArgs))).map
        (fun a => (download_video env engine a).1)).map DlResult.url = urls := by
      simp [List.map_map, Function.comp_def, download_video_url]
    rwa [h2] at h1
  · refine ⟨rs.foldl tally ⟨0, 0, []⟩, by simp [mainRun], ?_⟩
    rw [tally_foldl_counts]
    simpa using hlen

/-- Witness for C1 at a concrete one-URL batch. -/
theorem main_collects_one_result_per_url_witness :
    ∃ s, (mainRun env0 ["u1"] "720" "out" 1 none false true
            (TryOutcome.completed
              ((["u1"].map (fun url =>
                  (⟨url, "720", "out", none, false⟩ : WorkerArgs))).map
                (fun a => (download_video env0 engine0 a).1)))).summary = some s ∧
         s.succeeded + s.failed = (["u1"] : List String).length :=
  (main_collects_one_result_per_url env0 engine0 ["u1"] "720" "out" 1 none false _
    (List.Perm.refl _)).2.2

/-- C2: the item worker `download_video` is total (it returns a result
tuple for every engine outcome — no branch re-raises past its boundary,
so one item cannot abort siblings) and: on success it returns
`(url, true, none)`; on a `DownloadError` it returns `(url, false, msg)`
and emits an error-level log; on any other exception it returns
`(url, false, "Unexpected error: " ++ msg)` and emits an error-level log
plus a debug-level stack-trace log. -/
theorem download_video_contract (env : Env) (engine : String → EngineOutcome)
    (a : WorkerArgs) :
    ((download_video env engine a).1.url = a.url) ∧
    (∀ t, engine a.url = EngineOutcome.ok t →
        (download_video env engine a).1 = ⟨a.url, true, none⟩) ∧
    (∀ m, engine a.url = EngineOutcome.downloadError m →
        (download_video env engine a).1 = ⟨a.url, false, some m⟩ ∧
        ∃ e ∈ (download_video env engine a).2, e.level = LogLevel.error) ∧
    (∀ m, engine a.url = EngineOutcome.otherError m →
        (download_video env engine a).1
          = ⟨a.url, false, some ("Unexpected error: " ++ m)⟩ ∧
        (∃ e ∈ (download_video env engine a).2, e.level = LogLevel.error) ∧
        (∃ e ∈ (download_video env engine a).2, e.level = LogLevel.debug)) := by
  refine ⟨download_video_url env engine a, ?_, ?_, ?_⟩
  · intro t h
    simp [download_video, h]
  · intro m h
    refine ⟨by simp [download_video, h], ?_⟩
    refine ⟨⟨LogLevel.error, "yt-dlp error downloading (" ++ a.url ++ "): " ++ m⟩, ?_, rfl⟩
    simp [download_video, h]
  · intro m h
    refine ⟨by simp [download_video, h], ?_, ?_⟩
    · refine ⟨⟨LogLevel.error, "Unexpected error downloading (" ++ a.url ++ "): " ++ m⟩,
        ?_, rfl⟩
      simp [download_video, h]
    · refine ⟨⟨LogLevel.debug, "traceback"⟩, ?_, rfl⟩
      simp [download_video, h]

/-- Witness for C2 at a concrete failing engine. -/
theorem download_video_contract_witness :
    (download_video env0 (fun _ => EngineOutcome.downloadError ("HTTP Error 403"))
        ⟨"u1", "720", "out", none, false⟩).1
      = ⟨"u1", false, some "HTTP Error 403"⟩ ∧
    ∃ e ∈ (download_video env0 (fun _ => EngineOutcome.downloadError ("HTTP Error 403"))
        ⟨"u1", "720", "out", none, false⟩).2, e.level = LogLevel.error :=
  (download_video_contract env0 (fun _ => EngineOutcome.downloadError ("HTTP Error 403"))
    ⟨"u1", "720", "out", none, false⟩).2.2.1 ("HTTP Error 403") rfl

/-- C3: the orchestrator resolves the output directory to an absolute
path; when directory creation fails it logs an error and returns without
dispatching anything (and, a fortiori, without any download attempt);
work is dispatched only when the directory was created first, and the
dispatched list is exactly one argument tuple per URL. -/
theorem mkdir_failure_aborts (env : Env) (urls : List String)
    (quality output_dir : String) (processes : Int)
    (cookiefile : Option String) (quiet : Bool) :
    (∀ outcome, (mainRun env urls quality output_dir processes cookiefile quiet
        false outcome).dispatched = none) ∧
    (∀ outcome, (mainRun env urls quality output_dir processes cookiefile quiet
        false outcome).summary = none) ∧
    (∀ outcome, ∃ e ∈ (mainRun env urls quality output_dir processes cookiefile quiet
        false outcome).logs, e.level = LogLevel.error) ∧
    (∀ mk outcome, ((mainRun env urls quality output_dir processes cookiefile quiet
        mk outcome).dispatched).isSome = true →
        mk = true ∧ (mainRun env urls quality output_dir processes cookiefile quiet
          mk outcome).dirCreated = true) ∧
    (∀ mk outcome, (mainRun env urls quality output_dir processes cookiefile quiet
        mk outcome).absOutputDir = pyAbspath env.cwd output_dir) ∧
    (∀ outcome, (mainRun env urls quality output_dir processes cookiefile quiet
        true outcome).dispatched = some (urls.map (fun url =>
          ⟨url, quality, output_dir, cookiefile, quiet⟩))) := by
  refine ⟨fun outcome => by simp [mainRun], fun outcome => by simp [mainRun],
    fun outcome => ?_, fun mk outcome h => ?_, fun mk outcome => ?_,
    fun outcome => by simp [mainRun]⟩
  · refine ⟨⟨LogLevel.error,
      "Failed to create output directory: " ++ pyAbspath env.cwd output_dir⟩, ?_, rfl⟩
    simp [mainRun]
  · cases mk with
    | false => simp [mainRun] at h
    | true => exact ⟨rfl, by simp [mainRun]⟩
  · cases mk <;> simp [mainRun]

/-- Witness for C3: the dispatch of a concrete successful run implies the
directory was created first. -/
theorem mkdir_failure_aborts_witness :
    true = true ∧ (mainRun env0 ["u1"] "720" "out" 1 none false true
      (TryOutcome.completed [])).dirCreated = true :=
  (mkdir_failure_aborts env0 ["u1"] "720" "out" 1 none false).2.2.2.1 true
    (TryOutcome.completed []) rfl

/-- C4 counterexample: a KeyboardInterrupt that arrives while
`list(tqdm(pool.imap_unordered(...)))` is still assembling the results
(modelled by `TryOutcome.interruptedCollecting`) loses every result
produced so far, because the assignment to `results` never happens. In
this concrete run one successful result was produced before the
interruption, yet the printed summary counts zero results — so it is
false that every result produced before the interruption is counted. -/
theorem interruption_discards_collected_results :
    (mainRun env0 ["u1"] "720" "out" 1 none false true
        (TryOutcome.interruptedCollecting [⟨"u1", true, none⟩])).summary
      = some ⟨0, 0, []⟩ ∧
    ¬ ∃ s, (mainRun env0 ["u1"] "720" "out" 1 none false true
        (TryOutcome.interruptedCollecting [⟨"u1", true, none⟩])).summary = some s ∧
        1 ≤ s.succeeded + s.failed := by
  refine ⟨rfl, ?_⟩
  rintro ⟨s, hs, hc⟩
  have h0 : (mainRun env0 ["u1"] "720" "out" 1 none false true
      (TryOutcome.interruptedCollecting [⟨"u1", true, none⟩])).summary
        = some (⟨0, 0, []⟩ : BatchSummary) := rfl
  have hse : (⟨0, 0, []⟩ : BatchSummary) = s := by
    injection h0.symm.trans hs
  rw [← hse] at hc
  simp at hc

/-- C4 (amended): on interruption the batch still proceeds to the
summary block, but only the results already consumed by the counting
loop are reported: an interruption during the counting loop after `j`
entries keeps exactly those `j`; an interruption while the result list
is still being assembled discards everything collected, and the summary
then reports zero successes and zero failures. -/
theorem interruption_reaches_summary (env : Env) (urls : List String)
    (quality output_dir : String) (processes : Int)
    (cookiefile : Option String) (quiet : Bool) :
    (∀ produced, (mainRun env urls quality output_dir processes cookiefile quiet true
        (TryOutcome.interruptedCollecting produced)).summary = some ⟨0, 0, []⟩) ∧
    (∀ rs j, (mainRun env urls quality output_dir processes cookiefile quiet true
        (TryOutcome.interruptedTallying rs j)).summary
          = some ((rs.take j).foldl tally ⟨0, 0, []⟩)) ∧
    (∀ outcome, ((mainRun env urls quality output_dir processes cookiefile quiet true
        outcome).summary).isSome = true) := by
  refine ⟨fun produced => by simp [mainRun], fun rs j => by simp [mainRun],
    fun outcome => by cases outcome <;> simp [mainRun]⟩

/-- C5 counterexample: when `os.makedirs` fails, `main` logs the failure
and returns at line 113, BEFORE the `try/finally` of lines 121-147, so
this run (which is not one of the exit-code-1 URL-file paths) ends
without printing the summary block. -/
theorem mkdir_failure_prints_no_summary :
    (mainRun env0 ["u1"] "720" "out" 1 none false false
        (TryOutcome.completed [])).summary = none ∧
    (mainRun env0 ["u1"] "720" "out" 1 none false false
        (TryOutcome.completed [])).dispatched = none :=
  ⟨rfl, rfl⟩

/-- C5 (amended): besides the two exit-code-1 URL-file paths, the
output-directory-creation failure path also ends without the summary
block; on every other path — completion, partial failure, interruption
at either point, or an internal orchestration error — the `finally:`
clause prints the summary. -/
theorem summary_printed_on_all_other_paths (env : Env) (urls : List String)
    (quality output_dir : String) (processes : Int)
    (cookiefile : Option String) (quiet : Bool) :
    (load_video_urls none = Except.error 1) ∧
    (∀ lines, parse_url_lines lines = [] →
        load_video_urls (some lines) = Except.error 1) ∧
    (∀ outcome, ((mainRun env urls quality output_dir processes cookiefile quiet true
        outcome).summary).isSome = true) := by
  refine ⟨rfl, fun lines h => ?_, fun outcome => by cases outcome <;> simp [mainRun]⟩
  simp [load_video_urls, h]

/-- Witness for the amended C5 at a concrete empty URL file. -/
theorem summary_printed_on_all_other_paths_witness :
    load_video_urls (some ["# only a comment", "   "]) = Except.error 1 :=
  (summary_printed_on_all_other_paths env0 [] "720" "out" 1 none false).2.1
    ["# only a comment", "   "] (by decide)

/-- C6: URL-file parsing skips blank lines (stripped form empty) and
lines whose raw first character is the hash; every kept line is included
in stripped form; a missing file and a file with no valid line both give
exit code 1 before any dispatch; and the concrete scenario of a file
with 2 real lines, 1 comment line and 1 blank line produces exactly 2
dispatched download requests. -/
theorem url_file_rules :
    (∀ l ls, parse_url_lines (l :: ls) =
        if (pyStrip l).isEmpty || startsHash l then parse_url_lines ls
        else pyStrip l :: parse_url_lines ls) ∧
    (load_video_urls none = Except.error 1) ∧
    (∀ lines, parse_url_lines lines = [] →
        load_video_urls (some lines) = Except.error 1) ∧
    (load_video_urls (some ["https://example.com/a", "# a comment", "",
        "https://example.com/b"])
      = Except.ok ["https://example.com/a", "https://example.com/b"]) ∧
    (∃ tr, script_run env0 (some ["https://example.com/a", "# a comment", "",
          "https://example.com/b"]) "720" "out" 4 none false true
          (TryOutcome.completed []) = Except.ok tr ∧
        tr.dispatched = some
          [⟨"https://example.com/a", "720", "out", none, false⟩,
           ⟨"https://example.com/b", "720", "out", none, false⟩]) := by
  refine ⟨fun l ls => ?_, rfl, fun lines h => by simp [load_video_urls, h],
    rfl, ⟨_, rfl, rfl⟩⟩
  by_cases h1 : (pyStrip l).isEmpty <;> by_cases h2 : startsHash l <;>
    simp [parse_url_lines, List.filter_cons, h1, h2]

/-- Witness for C6 at a concrete comments-only file. -/
theorem url_file_rules_witness :
    load_video_urls (some ["# one", "# two"]) = Except.error 1 :=
  url_file_rules.2.2.1 ["# one", "# two"] (by decide)

/-- C10: the comment test of line 184 is `line.startswith` on the RAW
line, before stripping; a line whose first character is whitespace is
therefore never treated as a comment, even when its first non-blank
character is the hash, and (when not blank after stripping) it is
included, in stripped form, as a URL. -/
theorem leading_whitespace_line_is_not_comment (s : String) (c : Char)
    (rest : List Char) (h1 : s.toList = c :: rest) (h2 : c.isWhitespace = true)
    (h3 : pyStrip s ≠ "") :
    startsHash s = false ∧ parse_url_lines [s] = [pyStrip s] := by
  have hc : (c == '#') = false := by
    have h4 : ((c = ' ' ∨ c = '\t') ∨ c = '\r') ∨ c = '\n' := by
      simpa [Char.isWhitespace] using h2
    rcases h4 with ((h | h) | h) | h <;> subst h <;> rfl
  have hsh : startsHash s = false := by
    unfold startsHash
    rw [h1]
    exact hc
  have hne : (pyStrip s).isEmpty = false := by
    cases hE : (pyStrip s).isEmpty
    · rfl
    · exact absurd ((String.isEmpty_iff (pyStrip s)).mp hE) h3
  exact ⟨hsh, by simp [parse_url_lines, List.filter_cons, hne, hsh]⟩

/-- Witness for C10: a line of whitespace, then a hash, is kept as the
stripped URL. -/
theorem leading_whitespace_line_is_not_comment_witness :
    startsHash ("  # x") = false ∧ parse_url_lines ["  # x"] = [pyStrip ("  # x")] :=
  leading_whitespace_line_is_not_comment ("  # x") ' ' [' ', '#', ' ', 'x']
    (by decide) (by decide) (by decide)

/-- C7: the options bundle has an output template equal to the absolute
path of the output directory joined with the title-and-unique-id
filename pattern; the exact three-stage format selector of line 58
(height-capped mp4 video plus m4a audio, then height-capped any video
plus audio, then unconstrained height-capped best); merge container
mp4; certificate verification enabled (`nocheckcertificate = false`);
and the identity string is a freshly generated user agent when the
generator is available, else the fixed default. The argument tuples of
line 115 carry no per-request identity override, so the override clause
of the claim is vacuous. -/
theorem ydl_opts_contract (env : Env) (a : WorkerArgs) (h : a.outputDir ≠ "") :
    ((build_ydl_opts env a).1.outtmpl
      = (joinC (abspathC env.cwd.toList a.outputDir.toList)
          OUTPUT_PATTERN.toList).asString) ∧
    ((build_ydl_opts env a).1.format = format_selector a.quality) ∧
    (format_selector a.quality
      = "bestvideo[height<=" ++ a.quality
        ++ "][ext=mp4]+bestaudio[ext=m4a]/bestvideo[height<=" ++ a.quality
        ++ "]+bestaudio/best[height<=" ++ a.quality ++ "]") ∧
    ((build_ydl_opts env a).1.mergeOutputFormat = "mp4") ∧
    ((build_ydl_opts env a).1.nocheckcertificate = false) ∧
    ((build_ydl_opts env a).1.httpUserAgent = env.uaRandom.getD ("Mozilla/5.0")) := by
  have hout : (build_ydl_opts env a).1.outtmpl
      = (abspathC env.cwd.toList
          (joinC a.outputDir.toList OUTPUT_PATTERN.toList)).asString := by
    rcases ha : a.cookiefile with _ | c
    · simp [build_ydl_opts, ha]
    · by_cases he : env.fsExists c <;> simp [build_ydl_opts, ha, he]
  have hpath : abspathC env.cwd.toList (joinC a.outputDir.toList OUTPUT_PATTERN.toList)
      = joinC (abspathC env.cwd.toList a.outputDir.toList) OUTPUT_PATTERN.toList := by
    unfold abspathC
    exact joinC_assoc _ _ _ (toList_ne_nil_of_ne_empty _ h) (by decide)
  have hred : ((build_ydl_opts env a).1.format = format_selector a.quality) ∧
      ((build_ydl_opts env a).1.mergeOutputFormat = "mp4") ∧
      ((build_ydl_opts env a).1.nocheckcertificate = false) ∧
      ((build_ydl_opts env a).1.httpUserAgent = env.uaRandom.getD ("Mozilla/5.0")) := by
    rcases ha : a.cookiefile with _ | c
    · simp [build_ydl_opts, ha]
    · by_cases he : env.fsExists c <;> simp [build_ydl_opts, ha, he]
  exact ⟨by rw [hout, hpath], hred.1, rfl, hred.2.1, hred.2.2.1, hred.2.2.2⟩

/-- Witness for C7 at a concrete request. -/
theorem ydl_opts_contract_witness :
    (build_ydl_opts env0 ⟨"u1", "720", "out", none, false⟩).1.mergeOutputFormat
      = "mp4" :=
  (ydl_opts_contract env0 ⟨"u1", "720", "out", none, false⟩ (by decide)).2.2.2.1

/-- C8: a configured worker count at most 0 is replaced by the default
`cpu_count()`, which is at least 1, so the effective count is positive;
a positive configured count is used unchanged. -/
theorem resolve_processes_contract (configured : Int) (cpuCount : Nat)
    (h : 1 ≤ cpuCount) :
    (configured ≤ 0 → resolve_processes configured cpuCount = (cpuCount : Int) ∧
        0 < resolve_processes configured cpuCount) ∧
    (0 < configured → resolve_processes configured cpuCount = configured) := by
  constructor
  · intro hc
    unfold resolve_processes
    rw [if_pos hc]
    exact ⟨rfl, by exact_mod_cast h⟩
  · intro hc
    unfold resolve_processes
    rw [if_neg (by omega)]

/-- Witness for C8 at a configured count of -2 and 4 cpus. -/
theorem resolve_processes_contract_witness :
    resolve_processes (-2) 4 = ((4 : Nat) : Int) ∧ 0 < resolve_processes (-2) 4 :=
  (resolve_processes_contract (-2) 4 (by decide)).1 (by decide)

/-- C9: a specified cookie path is put into the options bundle only when
it exists; a specified but missing path yields a warning (both in the
worker, line 77, and in the `__main__` block, line 204) and processing
continues: the batch is still dispatched with one request per URL, the
missing cookie path passed along untouched. -/
theorem cookiefile_handling (env : Env) (a : WorkerArgs) (c : String) :
    (a.cookiefile = some c → env.fsExists c = true →
        (build_ydl_opts env a).1.cookiefile = some c) ∧
    (a.cookiefile = some c → env.fsExists c = false →
        (build_ydl_opts env a).1.cookiefile = none ∧
        (⟨LogLevel.warning, "Cookie file specified but not found: " ++ c⟩ : LogEvent)
          ∈ (build_ydl_opts env a).2) ∧
    (env.fsExists (pyAbspath env.cwd c) = false →
        (resolve_cookie env (some c)).2
          = [⟨LogLevel.warning,
              "Specified cookie file does not exist: " ++ pyAbspath env.cwd c⟩]) ∧
    (∀ fileLines urls quality output_dir processes quiet outcome,
        load_video_urls fileLines = Except.ok urls →
        ∃ tr, script_run env fileLines quality output_dir processes (some c) quiet
            true outcome = Except.ok tr ∧
          tr.dispatched = some (urls.map (fun url =>
            (⟨url, quality, output_dir, some (pyAbspath env.cwd c), quiet⟩
              : WorkerArgs)))) := by
  refine ⟨fun h1 h2 => by simp [build_ydl_opts, h1, h2],
    fun h1 h2 => ⟨by simp [build_ydl_opts, h1, h2], by simp [build_ydl_opts, h1, h2]⟩,
    fun h => by simp [resolve_cookie, h], ?_⟩
  intro fileLines urls quality output_dir processes quiet outcome hload
  have hrun : script_run env fileLines quality output_dir processes (some c) quiet
      true outcome
      = Except.ok (mainRun env urls quality output_dir
          (resolve_processes processes env.cpuCount)
          (some (pyAbspath env.cwd c)) quiet true outcome) := by
    unfold script_run
    rw [hload]
    rfl
  exact ⟨_, hrun, by simp [mainRun]⟩

/-- Witness for C9 at a concrete request with a missing cookie file. -/
theorem cookiefile_handling_witness :
    (build_ydl_opts env0 ⟨"u1", "720", "out", some ("ck"), false⟩).1.cookiefile
        = none ∧
    (⟨LogLevel.warning, "Cookie file specified but not found: " ++ "ck"⟩ : LogEvent)
      ∈ (build_ydl_opts env0 ⟨"u1", "720", "out", some ("ck"), false⟩).2 :=
  (cookiefile_handling env0 ⟨"u1", "720", "out", some ("ck"), false⟩ "ck").2.1 rfl rfl
